import Mathlib

/-!
Verification of `AudioSourceSDFAT` (src/src/AudioTools/Disk/AudioSourceSDFAT.h).

The class is embedded shallowly: its mutable members become fields of
`SDFAT.State`, the SdFat collaborator (file open, card mount, the
`SDDirect` index lookup `idx[i]`) is an abstract environment `SDFAT.Env`,
and each member function becomes a Lean function on the state.  Machine
integers follow the ESP32-A1S target: `size_t` and `int` are 32 bits, so
`size_t` arithmetic is taken modulo 2^32 and the `size_t → int` conversion
wraps two's-complement style.

Beyond the members of the C++ object, the state carries two observation
fields that record the externally visible resource effects:
`open_files` is the list of OS-level file handles currently held (the
object owns a single `AudioFile file`, so this list is `[]` or a
singleton), and `open_attempts` logs every `file.open` call issued.
`did_unmount` records whether `sd.end()` has ever been invoked.
-/

namespace SDFAT

set_option maxRecDepth 8192

/-- MAX_FILE_LEN comes from AudioToolsConfig.h, which is outside the
repository sources; 256 mirrors the library default.  Its concrete value
is irrelevant to the claims below. -/
def MAX_FILE_LEN : Nat := 256

/-- Effect of strncpy(file_name, path, MAX_FILE_LEN) on the name buffer:
the stored name is the path truncated to the buffer length. -/
def strncpyStore (path : String) : String :=
  String.mk (path.data.take MAX_FILE_LEN)

/-- Abstract SdFat collaborator: whether file.open(path, O_RDONLY)
succeeds, whether sd.begin(cfg) succeeds, and the path produced by the
SDDirect index lookup idx[i] (none models a null result). -/
structure Env where
  openOk : String → Bool
  mountOk : Bool
  idxPath : Nat → Option String

/-- State of an AudioSourceSDFAT object, plus resource observations. -/
structure State where
  is_sd_setup : Bool
  is_close_sd : Bool
  owns_cfg : Bool
  file_open : Bool
  open_files : List String
  open_attempts : List String
  idx_pos : Nat
  file_name : String
  idx_cfg : Option (String × String × String)
  start_path : String
  exension : String
  file_name_pattern : String
  setup_index : Bool
  did_unmount : Bool
deriving DecidableEq

/-- Value returned by the selectStream / nextStream members: either the
null pointer or the address of the member `AudioFile file`. -/
inductive StreamPtr where
  | null : StreamPtr
  | toFile : StreamPtr
deriving DecidableEq

/-- Default constructor (lines 48-60): allocates an SdSpiConfig that the
object owns; the storage is not yet set up.  The C++ `file_name` buffer
is not initialized by any constructor, so its initial contents is the
parameter `initName`. -/
def ctorDefault (startFilePath ext : String) (setupIndex : Bool)
    (initName : String) : State :=
  { is_sd_setup := false, is_close_sd := true, owns_cfg := true,
    file_open := false, open_files := [], open_attempts := [],
    idx_pos := 0, file_name := initName, idx_cfg := none,
    start_path := startFilePath, exension := ext,
    file_name_pattern := "*", setup_index := setupIndex,
    did_unmount := false }

/-- Constructor with a caller-provided SdSpiConfig (lines 63-71): same as
the default constructor except the object does not own the config. -/
def ctorSpiConfig (startFilePath ext : String) (setupIndex : Bool)
    (initName : String) : State :=
  { ctorDefault startFilePath ext setupIndex initName with
    owns_cfg := false }

/-- Constructor for a provided open AudioFs (lines 74-85): the storage is
already set up and, since the object did not mount it, is_close_sd is
cleared so teardown never unmounts it. -/
def ctorAudioFs (startFilePath ext : String) (setupIndex : Bool)
    (initName : String) : State :=
  { ctorDefault startFilePath ext setupIndex initName with
    owns_cfg := false, is_sd_setup := true, is_close_sd := false }

/-- Effect of file.close() on the state: the member file is no longer
open and the held OS handle, if any, is released. -/
def closeFile (s : State) : State :=
  { s with file_open := false, open_files := [] }

/-- selectStream(const char* path) (lines 128-144).  Closes the member
file first, returns null for a null path, otherwise attempts the open
(logging on failure but not returning), copies the path into the name
buffer with strncpy, and returns the address of the member file. -/
def selectStreamPath (env : Env) (s : State) (path : Option String) :
    State × StreamPtr :=
  match path with
  | none => (closeFile s, StreamPtr.null)
  | some p =>
    let s2 := { closeFile s with
                open_attempts := (closeFile s).open_attempts ++ [p] }
    let s3 := if env.openOk p then
                { s2 with file_open := true, open_files := [p] }
              else s2
    ({ s3 with file_name := strncpyStore p }, StreamPtr.toFile)

/-- selectStream(int index) (lines 120-126).  A non-negative index is
adopted as the new idx_pos (size_t); a negative one is ignored; then the
file at the current idx_pos is looked up and selected. -/
def selectStreamIdx (env : Env) (s : State) (index : Int) :
    State × StreamPtr :=
  let s1 := if index > -1 then { s with idx_pos := index.toNat } else s
  selectStreamPath env s1 (env.idxPath s1.idx_pos)

/-- Conversion int → size_t on a 32-bit target: reduction modulo 2^32. -/
def sizeTofInt (i : Int) : Nat := (i % 4294967296).toNat

/-- Conversion size_t → int on a 32-bit target: two's-complement wrap. -/
def intOfSizeT (n : Nat) : Int :=
  if n < 2147483648 then (n : Int) else (n : Int) - 4294967296

/-- nextStream(int offset = 1) (lines 115-118): computes idx_pos + offset
in size_t arithmetic and passes the result to the int parameter of
selectStream(int). -/
def nextStream (env : Env) (s : State) (offset : Int) :
    State × StreamPtr :=
  selectStreamIdx env s
    (intOfSizeT ((s.idx_pos + sizeTofInt offset) % 4294967296))

/-- nextStream() with the default argument offset = 1. -/
def nextStreamDefault (env : Env) (s : State) : State × StreamPtr :=
  nextStream env s 1

/-- begin() (lines 92-103).  If the storage is not set up, it is mounted;
on mount failure the function returns at once (nothing else changes).
Otherwise the SDDirect enumerator is configured with the current root,
extension and pattern, and the position is reset to 0. -/
def begin (env : Env) (s : State) : State :=
  if s.is_sd_setup then
    { s with
      idx_cfg := some (s.start_path, s.exension, s.file_name_pattern),
      idx_pos := 0 }
  else if env.mountOk then
    { s with
      is_sd_setup := true,
      idx_cfg := some (s.start_path, s.exension, s.file_name_pattern),
      idx_pos := 0 }
  else s

/-- end() (lines 105-113), on the ESP32 build, where the sd.end() line is
compiled in: when the storage is set up, sd.end() is called if the
session owns the mount (is_close_sd), and the setup flag is cleared.
Note the member file is not touched. -/
def endOp (s : State) : State :=
  if s.is_sd_setup then
    { s with
      did_unmount := s.did_unmount || s.is_close_sd,
      is_sd_setup := false }
  else s

/-- Destructor (lines 87-90): calls end(); deleting the owned
SdSpiConfig has no effect on the modelled state. -/
def dtor (s : State) : State := endOp s

/-- setFileFilter (line 148). -/
def setFileFilter (s : State) (filter : String) : State :=
  { s with file_name_pattern := filter }

/-- setPath (line 160). -/
def setPath (s : State) (p : String) : State := { s with start_path := p }

/-- index() (line 151): idx_pos returned through an int. -/
def index (s : State) : Int := intOfSizeT s.idx_pos

/-- toStr() (line 154): the stored file name. -/
def toStr (s : State) : String := s.file_name

/-- One public call on the object, for reasoning about call sequences. -/
inductive Op where
  | beginOp : Op
  | endCall : Op
  | next (offset : Int) : Op
  | selIdx (i : Int) : Op
  | selPath (p : Option String) : Op
  | setFilter (f : String) : Op
  | setRoot (p : String) : Op
deriving DecidableEq

/-- State transition of one call (return values dropped). -/
def runOp (env : Env) (s : State) : Op → State
  | Op.beginOp => begin env s
  | Op.endCall => endOp s
  | Op.next o => (nextStream env s o).1
  | Op.selIdx i => (selectStreamIdx env s i).1
  | Op.selPath p => (selectStreamPath env s p).1
  | Op.setFilter f => setFileFilter s f
  | Op.setRoot p => setPath s p

/-- Run a sequence of calls. -/
def runOps (env : Env) (s : State) : List Op → State
  | [] => s
  | op :: ops => runOps env (runOp env s op) ops

/-- The list of states observed after each call of a sequence. -/
def traceOps (env : Env) (s : State) : List Op → List State
  | [] => []
  | op :: ops => runOp env s op :: traceOps env (runOp env s op) ops

/-- At most one OS-level file handle is held. -/
def handleLe1 (s : State) : Bool := s.open_files.length ≤ 1

end SDFAT

namespace SDFAT

/-- Concrete test collaborator: two openable files, index 0 resolving to
"a.mp3" and index 5 to "ok.mp3", mounting succeeds. -/
def envT : Env :=
  { openOk := fun p => decide (p = "a.mp3") || decide (p = "ok.mp3"),
    mountOk := true,
    idxPath := fun n =>
      if n = 0 then some "a.mp3" else if n = 5 then some "ok.mp3" else none }

/-- Concrete test collaborator whose mount fails. -/
def envNoMount : Env :=
  { openOk := fun _ => false, mountOk := false, idxPath := fun _ => none }

/-- A freshly default-constructed object. -/
def sInit : State := ctorDefault "/" ".mp3" true ""

/-- The object after a successful begin(). -/
def sMounted : State := begin envT sInit

/-- The object after a successful selectStream("a.mp3"): the handle is
open and the name buffer holds "a.mp3". -/
def sSel : State := (selectStreamPath envT sMounted (some "a.mp3")).1

/-- The mounted object with the position moved to 5. -/
def sAt5 : State := { sMounted with idx_pos := 5 }

lemma selectStreamPath_closeFile (env : Env) (s : State)
    (path : Option String) :
    selectStreamPath env s path = selectStreamPath env (closeFile s) path := by
  cases path <;> rfl

lemma selectStreamPath_idx_pos (env : Env) (s : State)
    (path : Option String) :
    (selectStreamPath env s path).1.idx_pos = s.idx_pos := by
  cases path with
  | none => rfl
  | some p =>
    by_cases h : env.openOk p <;>
      simp [selectStreamPath, closeFile, h]

lemma selectStreamPath_open_files (env : Env) (s : State) (p : String) :
    (selectStreamPath env s (some p)).1.open_files
      = (if env.openOk p then [p] else []) := by
  by_cases h : env.openOk p <;> simp [selectStreamPath, closeFile, h]

lemma selectStreamPath_open_files_nil (env : Env) (s : State) :
    (selectStreamPath env s none).1.open_files = [] := rfl

lemma begin_open_files (env : Env) (s : State) :
    (begin env s).open_files = s.open_files := by
  unfold begin
  split
  · rfl
  · split <;> rfl

lemma endOp_open_files (s : State) :
    (endOp s).open_files = s.open_files := by
  unfold endOp
  split <;> rfl

lemma selectStreamPath_open_files_le1 (env : Env) (s : State)
    (path : Option String) :
    (selectStreamPath env s path).1.open_files.length ≤ 1 := by
  cases path with
  | none => simp [selectStreamPath_open_files_nil]
  | some q =>
    rw [selectStreamPath_open_files]
    split <;> simp

lemma runOp_open_files_le1 (env : Env) (s : State) (op : Op)
    (h : s.open_files.length ≤ 1) :
    (runOp env s op).open_files.length ≤ 1 := by
  cases op with
  | beginOp => simpa [runOp, begin_open_files] using h
  | endCall => simpa [runOp, endOp_open_files] using h
  | next o => exact selectStreamPath_open_files_le1 env _ _
  | selIdx i => exact selectStreamPath_open_files_le1 env _ _
  | selPath p => exact selectStreamPath_open_files_le1 env _ _
  | setFilter f => simpa [runOp, setFileFilter] using h
  | setRoot p => simpa [runOp, setPath] using h

lemma traceOps_open_files_le1 (env : Env) (ops : List Op) :
    ∀ s : State, s.open_files.length ≤ 1 →
      ∀ t ∈ traceOps env s ops, t.open_files.length ≤ 1 := by
  induction ops with
  | nil => intro s _ t ht; simp [traceOps] at ht
  | cons op ops ih =>
    intro s hs t ht
    simp only [traceOps, List.mem_cons] at ht
    rcases ht with ht | ht
    · subst ht; exact runOp_open_files_le1 env s op hs
    · exact ih (runOp env s op) (runOp_open_files_le1 env s op hs) t ht


lemma selectStreamPath_is_close_sd (env : Env) (s : State)
    (path : Option String) :
    (selectStreamPath env s path).1.is_close_sd = s.is_close_sd := by
  cases path with
  | none => rfl
  | some p => by_cases h : env.openOk p <;> simp [selectStreamPath, closeFile, h]

lemma selectStreamPath_did_unmount (env : Env) (s : State)
    (path : Option String) :
    (selectStreamPath env s path).1.did_unmount = s.did_unmount := by
  cases path with
  | none => rfl
  | some p => by_cases h : env.openOk p <;> simp [selectStreamPath, closeFile, h]

lemma selectStreamIdx_is_close_sd (env : Env) (s : State) (i : Int) :
    (selectStreamIdx env s i).1.is_close_sd = s.is_close_sd := by
  by_cases h : i > -1 <;>
    simp [selectStreamIdx, h, selectStreamPath_is_close_sd]

lemma selectStreamIdx_did_unmount (env : Env) (s : State) (i : Int) :
    (selectStreamIdx env s i).1.did_unmount = s.did_unmount := by
  by_cases h : i > -1 <;>
    simp [selectStreamIdx, h, selectStreamPath_did_unmount]

lemma begin_is_close_sd (env : Env) (s : State) :
    (begin env s).is_close_sd = s.is_close_sd := by
  unfold begin
  split
  · rfl
  · split <;> rfl

lemma begin_did_unmount (env : Env) (s : State) :
    (begin env s).did_unmount = s.did_unmount := by
  unfold begin
  split
  · rfl
  · split <;> rfl

lemma endOp_is_close_sd (s : State) :
    (endOp s).is_close_sd = s.is_close_sd := by
  unfold endOp
  split <;> rfl

lemma endOp_did_unmount_of_not_close (s : State)
    (h : s.is_close_sd = false) : (endOp s).did_unmount = s.did_unmount := by
  unfold endOp
  split <;> simp [h]

lemma endOp_did_unmount_of_close (s : State) (h1 : s.is_close_sd = true)
    (h2 : s.is_sd_setup = true) : (endOp s).did_unmount = true := by
  unfold endOp
  rw [h2]
  simp [h1]

lemma runOp_is_close_sd (env : Env) (s : State) (op : Op) :
    (runOp env s op).is_close_sd = s.is_close_sd := by
  cases op with
  | beginOp => exact begin_is_close_sd env s
  | endCall => exact endOp_is_close_sd s
  | next o => exact selectStreamIdx_is_close_sd env s _
  | selIdx i => exact selectStreamIdx_is_close_sd env s i
  | selPath p => exact selectStreamPath_is_close_sd env s p
  | setFilter f => rfl
  | setRoot p => rfl

lemma runOp_did_unmount_of_not_close (env : Env) (s : State) (op : Op)
    (h : s.is_close_sd = false) :
    (runOp env s op).did_unmount = s.did_unmount := by
  cases op with
  | beginOp => exact begin_did_unmount env s
  | endCall => exact endOp_did_unmount_of_not_close s h
  | next o => exact selectStreamIdx_did_unmount env s _
  | selIdx i => exact selectStreamIdx_did_unmount env s i
  | selPath p => exact selectStreamPath_did_unmount env s p
  | setFilter f => rfl
  | setRoot p => rfl

lemma runOps_is_close_sd (env : Env) (ops : List Op) :
    ∀ s : State, (runOps env s ops).is_close_sd = s.is_close_sd := by
  induction ops with
  | nil => intro s; rfl
  | cons op ops ih =>
    intro s
    rw [runOps, ih (runOp env s op), runOp_is_close_sd]

lemma runOps_did_unmount_of_not_close (env : Env) (ops : List Op) :
    ∀ s : State, s.is_close_sd = false →
      (runOps env s ops).did_unmount = s.did_unmount := by
  induction ops with
  | nil => intro s _; rfl
  | cons op ops ih =>
    intro s h
    rw [runOps, ih (runOp env s op) (by rw [runOp_is_close_sd]; exact h),
      runOp_did_unmount_of_not_close env s op h]

lemma intOfSizeT_wrap (p : Nat) (o : Int)
    (hlo : -2147483648 ≤ (p : Int) + o)
    (hhi : (p : Int) + o < 2147483648) :
    intOfSizeT ((p + sizeTofInt o) % 4294967296) = (p : Int) + o := by
  unfold intOfSizeT sizeTofInt
  split <;> omega


/-- Claim C1 counterexample: at a mounted state, selectStream on a path
whose open fails does not return a null stream, contrary to the claim:
it returns the address of the member file. -/
theorem selectStream_open_failure_not_null_C1_cex :
    envT.openOk "missing.mp3" = false ∧
    (selectStreamPath envT sMounted (some "missing.mp3")).2
      ≠ StreamPtr.null := by
  decide

/-- Claim C1, amended: for every call of selectStream(path) with a
non-null path, the function returns the pointer to the member stream
object (never null), the member file is open exactly when the open
succeeded — so on failure no handle is open — and only a null path
yields a null stream. -/
theorem selectStream_returns_member_file_C1 (env : Env) (s : State)
    (p : String) :
    (selectStreamPath env s (some p)).2 = StreamPtr.toFile ∧
    (selectStreamPath env s (some p)).1.file_open = env.openOk p ∧
    (selectStreamPath env s (some p)).1.open_files
      = (if env.openOk p then [p] else []) ∧
    (selectStreamPath env s none).2 = StreamPtr.null := by
  refine ⟨?_, ?_, selectStreamPath_open_files env s p, rfl⟩ <;>
    by_cases h : env.openOk p <;> simp [selectStreamPath, closeFile, h]

/-- Claim C2 counterexample: after a successful selection of "a.mp3", a
failing selectStream("missing.mp3") overwrites the stored name, so
toStr() reports the failed attempt, not the last successful one. -/
theorem file_name_overwritten_on_failure_C2_cex :
    toStr sSel = "a.mp3" ∧
    envT.openOk "missing.mp3" = false ∧
    toStr (selectStreamPath envT sSel (some "missing.mp3")).1
      = "missing.mp3" := by
  decide

/-- Claim C2, amended: every selectStream call with a non-null path
stores that path (strncpy-truncated) in the name buffer, whether or not
the open succeeds; the stored name is unchanged only when the path is
null. -/
theorem file_name_follows_every_nonnull_path_C2 (env : Env) (s : State)
    (p : String) :
    toStr (selectStreamPath env s (some p)).1 = strncpyStore p ∧
    toStr (selectStreamPath env s none).1 = toStr s := by
  refine ⟨?_, rfl⟩
  by_cases h : env.openOk p <;> simp [toStr, selectStreamPath, closeFile, h]

/-- Claim C4 counterexample: at a reachable state holding an open
stream, end() leaves the stream open — it does not close the member
file. -/
theorem end_does_not_close_stream_C4_cex :
    sSel.file_open = true ∧ sSel.open_files = ["a.mp3"] ∧
    (endOp sSel).file_open = true ∧
    (endOp sSel).open_files = ["a.mp3"] := by
  decide

/-- Claim C4, amended: end() never touches the open stream handle (the
member file and its OS handle are exactly preserved); it only clears the
setup flag, unmounting the storage precisely when the storage was set up
and the session owns the mount. -/
theorem end_leaves_stream_untouched_C4 (s : State) :
    (endOp s).file_open = s.file_open ∧
    (endOp s).open_files = s.open_files ∧
    (endOp s).file_name = s.file_name ∧
    (endOp s).is_sd_setup = false ∧
    (endOp s).did_unmount
      = (s.did_unmount || (s.is_sd_setup && s.is_close_sd)) := by
  cases h : s.is_sd_setup <;> simp [endOp, h]

/-- Claim C9 counterexample: the empty path is not rejected: the open is
attempted on "" and the member stream pointer is returned, not null. -/
theorem empty_path_not_rejected_C9_cex :
    (selectStreamPath envT sMounted (some "")).2 ≠ StreamPtr.null ∧
    (selectStreamPath envT sMounted (some "")).1.open_attempts = [""] := by
  decide

/-- Claim C9, amended: only a null path is rejected: it yields a null
stream and, apart from the unconditional close, leaves the state
untouched with no open attempted; every non-null path — the empty
string included — leads to an open attempt and a non-null return. -/
theorem only_null_path_rejected_C9 (env : Env) (s : State) (p : String) :
    (selectStreamPath env s none).2 = StreamPtr.null ∧
    (selectStreamPath env s none).1 = closeFile s ∧
    (selectStreamPath env s (some p)).1.open_attempts
      = s.open_attempts ++ [p] ∧
    (selectStreamPath env s (some p)).2 = StreamPtr.toFile := by
  refine ⟨rfl, rfl, ?_, ?_⟩ <;> by_cases h : env.openOk p <;>
    simp [selectStreamPath, closeFile, h]


/-- A sample call sequence exercising begin, path and index selection
(successful, failing and null), relative navigation and end. -/
def opsW : List Op :=
  [Op.beginOp, Op.selPath (some "a.mp3"), Op.next 1, Op.selIdx (-1),
   Op.selPath (some "missing.mp3"), Op.selPath none, Op.endCall]

/-- Claim C3: after any sequence of calls starting from a state holding
at most one handle, at most one OS file handle is open at the end of
each call; selectStream(path) behaves identically whether or not a
handle was open before — the close happens first, unconditionally, even
for a null path or a failing open — and after it the only handle that
can remain is the newly opened one. -/
theorem single_handle_invariant_C3 (env : Env) (s : State) (ops : List Op)
    (path : Option String) (p : String)
    (h : s.open_files.length ≤ 1) :
    (traceOps env s ops).all handleLe1 = true ∧
    selectStreamPath env s path = selectStreamPath env (closeFile s) path ∧
    (selectStreamPath env s (some p)).1.open_files
      = (if env.openOk p then [p] else []) := by
  refine ⟨?_, selectStreamPath_closeFile env s path,
    selectStreamPath_open_files env s p⟩
  rw [List.all_eq_true]
  intro t ht
  simpa [handleLe1] using traceOps_open_files_le1 env ops s h t ht

/-- Witness for C3 at a concrete environment, start state, call
sequence and paths. -/
theorem single_handle_invariant_C3_witness :
    (traceOps envT sInit opsW).all handleLe1 = true ∧
    selectStreamPath envT sInit (some "")
      = selectStreamPath envT (closeFile sInit) (some "") ∧
    (selectStreamPath envT sInit (some "a.mp3")).1.open_files
      = (if envT.openOk "a.mp3" then ["a.mp3"] else []) :=
  single_handle_invariant_C3 envT sInit opsW (some "") "a.mp3" (by decide)

/-- Claim C5: a session constructed from an already-open AudioFs never
unmounts the filesystem, across any call sequence, end() and the
destructor included; a session built by the other two constructors,
once its storage is set up, does unmount it on end(). -/
theorem audiofs_session_never_unmounts_C5 (env : Env)
    (sp ext iname sp2 ext2 iname2 : String) (si si2 : Bool)
    (ops ops2 : List Op)
    (h2 : (runOps env (ctorDefault sp2 ext2 si2 iname2) ops2).is_sd_setup
      = true)
    (h3 : (runOps env (ctorSpiConfig sp2 ext2 si2 iname2) ops2).is_sd_setup
      = true) :
    (runOps env (ctorAudioFs sp ext si iname) ops).did_unmount = false ∧
    (dtor (runOps env (ctorAudioFs sp ext si iname) ops)).did_unmount
      = false ∧
    (endOp (runOps env (ctorDefault sp2 ext2 si2 iname2) ops2)).did_unmount
      = true ∧
    (endOp (runOps env (ctorSpiConfig sp2 ext2 si2 iname2)
      ops2)).did_unmount = true := by
  refine ⟨?_, ?_, ?_, ?_⟩
  · exact (runOps_did_unmount_of_not_close env ops _ rfl).trans rfl
  · exact (endOp_did_unmount_of_not_close _
      ((runOps_is_close_sd env ops _).trans rfl)).trans
      ((runOps_did_unmount_of_not_close env ops _ rfl).trans rfl)
  · exact endOp_did_unmount_of_close _
      ((runOps_is_close_sd env ops2 _).trans rfl) h2
  · exact endOp_did_unmount_of_close _
      ((runOps_is_close_sd env ops2 _).trans rfl) h3

/-- Witness for C5 at concrete constructor arguments and sequences. -/
theorem audiofs_session_never_unmounts_C5_witness :
    (runOps envT (ctorAudioFs "/" "" true "")
      [Op.beginOp, Op.selIdx 0, Op.endCall]).did_unmount = false ∧
    (dtor (runOps envT (ctorAudioFs "/" "" true "")
      [Op.beginOp, Op.selIdx 0, Op.endCall])).did_unmount = false ∧
    (endOp (runOps envT (ctorDefault "/" ".mp3" true "")
      [Op.beginOp])).did_unmount = true ∧
    (endOp (runOps envT (ctorSpiConfig "/" ".mp3" true "")
      [Op.beginOp])).did_unmount = true :=
  audiofs_session_never_unmounts_C5 envT "/" "" "" "/" ".mp3" ""
    true true [Op.beginOp, Op.selIdx 0, Op.endCall] [Op.beginOp]
    (by decide) (by decide)

/-- Claim C6: selectStream(int) adopts the index as the new position
exactly when it is greater than -1 and keeps the old position otherwise,
and in both cases delegates to selectStream(path) on the file resolved
at the resulting position. -/
theorem selectIndex_guard_C6 (env : Env) (s : State) (i : Int) :
    selectStreamIdx env s i
      = selectStreamPath env
          (if i > -1 then { s with idx_pos := i.toNat } else s)
          (env.idxPath (if i > -1 then i.toNat else s.idx_pos)) ∧
    (selectStreamIdx env s i).1.idx_pos
      = (if i > -1 then i.toNat else s.idx_pos) := by
  by_cases h : i > -1 <;>
    simp [selectStreamIdx, h, selectStreamPath_idx_pos]

/-- Claim C7: whenever the mathematical sum of the current position and
the offset fits in a 32-bit int, nextStream(offset) is the same call —
same resulting state, same returned stream — as selectStream(int) at
current position + offset; the default offset is 1. -/
theorem next_equals_selectIndex_C7 (env : Env) (s : State) (offset : Int)
    (hlo : -2147483648 ≤ (s.idx_pos : Int) + offset)
    (hhi : (s.idx_pos : Int) + offset < 2147483648) :
    nextStream env s offset
      = selectStreamIdx env s ((s.idx_pos : Int) + offset) ∧
    nextStreamDefault env s = nextStream env s 1 := by
  refine ⟨?_, rfl⟩
  unfold nextStream
  rw [intOfSizeT_wrap s.idx_pos offset hlo hhi]

/-- Witness for C7 at position 5 with offset -2. -/
theorem next_equals_selectIndex_C7_witness :
    nextStream envT sAt5 (-2)
      = selectStreamIdx envT sAt5 ((sAt5.idx_pos : Int) + (-2)) ∧
    nextStreamDefault envT sAt5 = nextStream envT sAt5 1 :=
  next_equals_selectIndex_C7 envT sAt5 (-2) (by decide) (by decide)

/-- Claim C8: if the storage is not set up and mounting fails, begin()
returns with the state exactly unchanged (enumerator untouched,
position untouched, nothing fatal); if the storage is already set up or
mounting succeeds, the enumerator is configured with the current
root/extension/pattern and the position is reset to 0. -/
theorem begin_mount_C8 (env : Env) (s : State) :
    (s.is_sd_setup = false → env.mountOk = false → begin env s = s) ∧
    (s.is_sd_setup = true ∨ env.mountOk = true →
      (begin env s).is_sd_setup = true ∧
      (begin env s).idx_cfg
        = some (s.start_path, s.exension, s.file_name_pattern) ∧
      (begin env s).idx_pos = 0 ∧
      (begin env s).file_name = s.file_name ∧
      (begin env s).open_files = s.open_files ∧
      (begin env s).file_open = s.file_open) := by
  cases hs : s.is_sd_setup <;> cases hm : env.mountOk <;>
    simp [begin, hs, hm]

/-- Witness for C8: a failing mount on a fresh object and a succeeding
one. -/
theorem begin_mount_C8_witness :
    begin envNoMount sInit = sInit ∧
    ((begin envT sInit).is_sd_setup = true ∧
     (begin envT sInit).idx_cfg
       = some (sInit.start_path, sInit.exension, sInit.file_name_pattern) ∧
     (begin envT sInit).idx_pos = 0 ∧
     (begin envT sInit).file_name = sInit.file_name ∧
     (begin envT sInit).open_files = sInit.open_files ∧
     (begin envT sInit).file_open = sInit.file_open) :=
  ⟨(begin_mount_C8 envNoMount sInit).1 rfl rfl,
   (begin_mount_C8 envT sInit).2 (Or.inr rfl)⟩

/-- Claim C10: at position 0, nextStream(-1) wraps in size_t arithmetic,
is converted back to the int -1, hits the negative-index guard and so
re-selects the file at position 0, leaving the position at 0. -/
theorem next_minus_one_at_zero_C10 (env : Env) (s : State)
    (h : s.idx_pos = 0) :
    nextStream env s (-1) = selectStreamIdx env s (-1) ∧
    nextStream env s (-1) = selectStreamPath env s (env.idxPath 0) ∧
    (nextStream env s (-1)).1.idx_pos = 0 := by
  have h1 : intOfSizeT ((s.idx_pos + sizeTofInt (-1)) % 4294967296)
      = -1 := by
    rw [h]; decide
  have h2 : nextStream env s (-1) = selectStreamIdx env s (-1) := by
    unfold nextStream
    rw [h1]
  have h3 : selectStreamIdx env s (-1)
      = selectStreamPath env s (env.idxPath s.idx_pos) := by
    simp [selectStreamIdx]
  refine ⟨h2, ?_, ?_⟩
  · rw [h2, h3, h]
  · rw [h2, h3, selectStreamPath_idx_pos, h]

/-- Witness for C10 on the freshly mounted object, whose position is 0. -/
theorem next_minus_one_at_zero_C10_witness :
    nextStream envT sMounted (-1) = selectStreamIdx envT sMounted (-1) ∧
    nextStream envT sMounted (-1)
      = selectStreamPath envT sMounted (envT.idxPath 0) ∧
    (nextStream envT sMounted (-1)).1.idx_pos = 0 :=
  next_minus_one_at_zero_C10 envT sMounted (by decide)

end SDFAT
